import Mathlib

/-!
Verification of the tally-middleware AI refresh pipeline
(`jobs/refresh_scheduler.py` and `routes/dashboard.py`).

Shallow embedding conventions:
* SQL `numeric` monetary columns are modelled as exact integers (`Int`,
  whole currency units); all sums and comparisons are exact, as in SQL.
* The single SQL numeric division (`average_order_value`) is kept as an
  unevaluated exact fraction `Frac` (numerator / denominator).
* SQL `date`/`timestamp` values are modelled as integers (day / tick
  counts); `CURRENT_DATE`, `DATE_TRUNC('year', CURRENT_DATE)` and `NOW()`
  are supplied by a `Clock` record, since they are ambient inputs.
* `NULL`-able columns are `Option`; SQL `SUM` over an empty set yields
  `NULL`, which every query in the source wraps in `COALESCE(..., 0)`,
  so those sums are modelled directly as fold-sums with default 0.
* Each table is a `List` of row records; SQL tables are unordered, so
  properties proved are order-insensitive (memberships, filters, maps).
* Every `async` DB function of the source is a pure state transformer on
  `DB`; each of the three scheduler stages runs in its own transaction
  on its own pool, so a failed stage leaves the store exactly as it was
  before that stage, and the exception is re-raised (`raise`): this is
  modelled by per-stage success flags and a returned success Boolean.
-/

/-- Exact fraction recording a SQL numeric division result (numerator and
denominator kept unevaluated; produced only by `average_order_value`). -/
structure Frac where
  num : Int
  den : Nat
  deriving DecidableEq, Repr

/-- Row of the source-of-truth `vouchers` table (Ledger Store), including
the payment-projection columns written in place by `routes/dashboard.py`. -/
structure Voucher where
  id : Nat
  company_guid : String
  party_ledger_id : Nat
  voucher_type : String
  total_amount : Int
  is_cancelled : Bool
  date : Int
  due_date : Option Int
  amount_paid : Option Int
  amount_outstanding : Option Int
  payment_status : Option String
  payment_computed_at : Option Int
  aging_bucket : Option String
  deriving DecidableEq, Repr

/-- Row of the `ledgers` table (party ledger accounts). -/
structure Ledger where
  id : Nat
  guid : String
  company_guid : String
  name : Option String
  parent_group : String
  active : Bool
  opening_balance : Option Int
  deriving DecidableEq, Repr

/-- Row of the `payment_references` table (payment allocations). -/
structure PaymentRef where
  invoice_voucher_id : Nat
  allocated_amount : Int
  is_active : Bool
  deriving DecidableEq, Repr

/-- Row of `ai.customer_summary` as inserted by `refresh_customer_summary`. -/
structure CSRow where
  company_guid : String
  period_start : Int
  period_end : Int
  customer_name : String
  customer_guid : String
  opening_balance : Int
  sales_value : Int
  sales_count : Nat
  receipts_value : Int
  receipts_count : Nat
  outstanding_amount : Int
  current_balance : Int
  average_order_value : Frac
  sales_rank : Nat
  outstanding_rank : Nat
  outstanding_formatted : String
  sales_formatted : String
  balance_status : String
  deriving DecidableEq, Repr

/-- Row of `ai.business_overview` (fields touched by `refresh_business_overview`). -/
structure BORow where
  company_guid : String
  total_receivables : Int
  total_advances : Int
  total_customers : Nat
  total_sales : Int
  total_receipts : Int
  total_sales_formatted : Option String
  total_receivables_formatted : Option String
  total_advances_formatted : Option String
  deriving DecidableEq, Repr

/-- Row of `public.dashboard_metrics` (fields touched by `refresh_dashboard_metrics`). -/
structure DMRow where
  company_guid : String
  data_as_of_date : Int
  total_receivable : Option Int
  customer_count : Option Int
  calculated_at : Int
  deriving DecidableEq, Repr

/-- Ambient SQL time values: `CURRENT_DATE`, `DATE_TRUNC('year', CURRENT_DATE)`
and `NOW()`. -/
structure Clock where
  today : Int
  startOfYear : Int
  now : Int
  deriving DecidableEq, Repr

/-- Database state: the Ledger Store tables plus the Projection Store tables. -/
@[ext]
structure DB where
  ledgers : List Ledger
  vouchers : List Voucher
  payment_references : List PaymentRef
  customer_summary : List CSRow
  business_overview : List BORow
  dashboard_metrics : List DMRow
  deriving DecidableEq, Repr

/-- Voucher-type labels counted as sales in the value/count/outstanding
subqueries (refresh_scheduler.py lines 108-165). -/
def salesTypes : List String := ["Sales", "SALES", "Invoice", "Sales Invoice"]

/-- Voucher-type labels counted as receipts in the value/count/outstanding
subqueries (refresh_scheduler.py lines 122-165). -/
def receiptTypes : List String := ["Receipt", "RECEIPT", "Payment Received"]

/-- Sales labels used by the `average_order_value`, `outstanding_formatted`
and `balance_status` expressions (refresh_scheduler.py lines 166-217):
these omit the label variant 'Sales Invoice'. -/
def classifySalesTypes : List String := ["Sales", "SALES", "Invoice"]

/-- Receipt labels used by the `outstanding_formatted` and `balance_status`
expressions (refresh_scheduler.py lines 186-217): these omit 'Payment Received'. -/
def classifyReceiptTypes : List String := ["Receipt", "RECEIPT"]

/-- Embeds `COALESCE((SELECT SUM(v.total_amount) FROM vouchers v WHERE
v.party_ledger_id = pid AND v.voucher_type IN types AND v.is_cancelled =
FALSE), 0)`. -/
def sumVouchers (vs : List Voucher) (types : List String) (pid : Nat) : Int :=
  ((vs.filter fun v =>
      v.party_ledger_id == pid && types.contains v.voucher_type && !v.is_cancelled).map
    (·.total_amount)).sum

/-- Embeds the corresponding `SELECT COUNT(*)` subquery. -/
def countVouchers (vs : List Voucher) (types : List String) (pid : Nat) : Nat :=
  (vs.filter fun v =>
    v.party_ledger_id == pid && types.contains v.voucher_type && !v.is_cancelled).length

/-- Lower-cased names excluded from the customer filter (line 224). -/
def excludedNames : List String :=
  ["cash", "bank", "cash in hand", "petty cash", "bank account", "bank accounts"]

/-- Embeds SQL `LOWER` (ASCII case folding suffices for the names involved). -/
def lowerStr (s : String) : String := String.mk (s.data.map Char.toLower)

/-- Embeds the `WHERE` clause of the customer-summary `INSERT ... SELECT`
(refresh_scheduler.py lines 219-224). -/
def ledgerFilter (g : String) (l : Ledger) : Bool :=
  l.company_guid == g && l.parent_group == "Sundry Debtors" && l.active &&
    l.name.isSome && l.name.getD "" != "" &&
    !(excludedNames.contains (lowerStr (l.name.getD "")))

/-- Rounds the integer amount `x` at scale `10^p` to the nearest integer,
halves away from zero — SQL numeric `ROUND(x / 10^p, 0)` semantics. -/
def roundedScale (x : Int) (p : Nat) : Int :=
  let m : Nat := 10 ^ p
  let q : Nat := (2 * x.natAbs + m) / (2 * m)
  if x < 0 then -(q : Int) else (q : Int)

/-- Renders the scaled integer `n` as a decimal numeral with `d` fractional
digits, as Postgres renders a numeric of scale `d` in `'₹' || ROUND(...)`. -/
def renderFixed (n : Int) (d : Nat) : String :=
  let a := n.natAbs
  let sign := if n < 0 then "-" else ""
  if d = 0 then sign ++ toString a
  else
    let ip := a / 10 ^ d
    let fp := a % 10 ^ d
    let fs := toString fp
    let pad := String.mk (List.replicate (d - fs.length) '0')
    sign ++ toString ip ++ "." ++ pad ++ fs

/-- Embeds the `outstanding_formatted` CASE (lines 186-205): thresholds on
the absolute value, scale bands Cr / L, plain-rounded fallback, no K band. -/
def formatOutstandingBand (b : Int) : String :=
  if 10000000 ≤ |b| then "₹" ++ renderFixed (roundedScale b 5) 2 ++ " Cr"
  else if 100000 ≤ |b| then "₹" ++ renderFixed (roundedScale b 3) 2 ++ " L"
  else "₹" ++ renderFixed b 0

/-- Embeds the `sales_formatted` CASE of the third statement (lines 252-265):
Cr / L / K bands on the raw value, plain-rounded fallback. -/
def formatSalesBand (s : Int) : String :=
  if 10000000 ≤ s then "₹" ++ renderFixed (roundedScale s 5) 2 ++ " Cr"
  else if 100000 ≤ s then "₹" ++ renderFixed (roundedScale s 3) 2 ++ " L"
  else if 1000 ≤ s then "₹" ++ renderFixed (roundedScale s 2) 1 ++ " K"
  else "₹" ++ renderFixed s 0

/-- Embeds the Cr / L / plain CASE used by the three formatted totals of
`refresh_business_overview` (lines 316-349), thresholds on the raw value. -/
def formatOverviewBand (v : Int) : String :=
  if 10000000 ≤ v then "₹" ++ renderFixed (roundedScale v 5) 2 ++ " Cr"
  else if 100000 ≤ v then "₹" ++ renderFixed (roundedScale v 3) 2 ++ " L"
  else "₹" ++ renderFixed v 0

/-- Embeds one row of the customer-summary `INSERT ... SELECT` (lines 79-229)
for a ledger account that passed `ledgerFilter`. -/
def mkCustomerRow (g : String) (ps pe : Int) (vs : List Voucher) (l : Ledger) : CSRow :=
  let opening := l.opening_balance.getD 0
  let sv := sumVouchers vs salesTypes l.id
  let sc := countVouchers vs salesTypes l.id
  let rv := sumVouchers vs receiptTypes l.id
  let rc := countVouchers vs receiptTypes l.id
  let out := opening + sv - rv
  let aovCount := countVouchers vs classifySalesTypes l.id
  let classifyBal :=
    opening + sumVouchers vs classifySalesTypes l.id -
      sumVouchers vs classifyReceiptTypes l.id
  { company_guid := g
    period_start := ps
    period_end := pe
    customer_name := l.name.getD ""
    customer_guid := l.guid
    opening_balance := opening
    sales_value := sv
    sales_count := sc
    receipts_value := rv
    receipts_count := rc
    outstanding_amount := out
    current_balance := out
    average_order_value :=
      if 0 < aovCount then ⟨sumVouchers vs classifySalesTypes l.id, aovCount⟩ else ⟨0, 1⟩
    sales_rank := 0
    outstanding_rank := 0
    outstanding_formatted := formatOutstandingBand classifyBal
    sales_formatted := "₹0"
    balance_status :=
      if 0 < classifyBal then "OWES_MONEY"
      else if classifyBal < 0 then "HAS_ADVANCE"
      else "SETTLED" }

/-- Descending order on `sales_value` used by `ROW_NUMBER() OVER (ORDER BY
sales_value DESC)`. -/
def bySalesDesc (a b : CSRow) : Prop := b.sales_value ≤ a.sales_value

/-- Descending order on `outstanding_amount` used by `ROW_NUMBER() OVER
(ORDER BY outstanding_amount DESC)`. -/
def byOutstandingDesc (a b : CSRow) : Prop := b.outstanding_amount ≤ a.outstanding_amount

instance : DecidableRel bySalesDesc := fun _ _ => Int.decLe _ _

instance : DecidableRel byOutstandingDesc := fun _ _ => Int.decLe _ _

instance : IsTotal CSRow bySalesDesc := ⟨fun a b => le_total b.sales_value a.sales_value⟩

instance : IsTrans CSRow bySalesDesc := ⟨fun _ _ _ h h' => le_trans h' h⟩

instance : IsTotal CSRow byOutstandingDesc :=
  ⟨fun a b => le_total b.outstanding_amount a.outstanding_amount⟩

instance : IsTrans CSRow byOutstandingDesc := ⟨fun _ _ _ h h' => le_trans h' h⟩

/-- Writes `sales_rank := n, n+1, ...` along a list already sorted by
descending `sales_value`. -/
def setSalesRanks : Nat → List CSRow → List CSRow
  | _, [] => []
  | n, r :: rs => { r with sales_rank := n } :: setSalesRanks (n + 1) rs

/-- Writes `outstanding_rank := n, n+1, ...` along a list already sorted by
descending `outstanding_amount`. -/
def setOutstandingRanks : Nat → List CSRow → List CSRow
  | _, [] => []
  | n, r :: rs => { r with outstanding_rank := n } :: setOutstandingRanks (n + 1) rs

/-- Embeds the rank `UPDATE` (lines 231-250): `ROW_NUMBER()` over the
tenant's rows by `sales_value DESC` and by `outstanding_amount DESC`.
`ROW_NUMBER` leaves the order of ties unspecified; the embedding fixes a
deterministic order (insertion sort), which realises one admissible
execution. The SQL joins ranked rows back by `customer_guid`; ledger guids
are the table key, so positional assignment is equivalent. -/
def assignRanks (rows : List CSRow) : List CSRow :=
  setOutstandingRanks 1
    (List.insertionSort byOutstandingDesc
      (setSalesRanks 1 (List.insertionSort bySalesDesc rows)))

/-- Embeds the `sales_formatted` `UPDATE` (lines 252-265) over the tenant's
freshly inserted rows. -/
def applySalesFormatted (rows : List CSRow) : List CSRow :=
  rows.map fun r => { r with sales_formatted := formatSalesBand r.sales_value }

/-- Full set of rows written for one tenant by `refresh_customer_summary`:
filtered ledgers, per-ledger aggregation, ranks, then formatted sales. -/
def customerRows (g : String) (ps pe : Int) (vs : List Voucher) (ls : List Ledger) :
    List CSRow :=
  applySalesFormatted (assignRanks ((ls.filter (ledgerFilter g)).map (mkCustomerRow g ps pe vs)))

/-- Embeds `period_start` (lines 51-59): `COALESCE(MIN(date) over the
tenant's vouchers, DATE_TRUNC('year', CURRENT_DATE))`. -/
def periodStart (g : String) (c : Clock) (vs : List Voucher) : Int :=
  (((vs.filter fun v => v.company_guid == g).map (·.date)).min?).getD c.startOfYear

/-- Embeds `period_end` (lines 61-69): `COALESCE(MAX(date) over the tenant's
vouchers, CURRENT_DATE)`. -/
def periodEnd (g : String) (c : Clock) (vs : List Voucher) : Int :=
  (((vs.filter fun v => v.company_guid == g).map (·.date)).max?).getD c.today

/-- Embeds `refresh_customer_summary` (lines 39-272): observation period from
the tenant's voucher dates with `COALESCE` defaults, `DELETE` of the
tenant's rows, `INSERT ... SELECT`, rank update, formatted-sales update.
All statements run in one transaction; the committed result is the final
state. -/
def refreshCustomerSummary (g : String) (c : Clock) (db : DB) : DB :=
  { db with
    customer_summary :=
      (db.customer_summary.filter fun r => r.company_guid != g) ++
        customerRows g (periodStart g c db.vouchers) (periodEnd g c db.vouchers)
          db.vouchers db.ledgers }

/-- Rows of the customer-summary table belonging to one tenant. -/
def tenantRows (g : String) (rows : List CSRow) : List CSRow :=
  rows.filter fun r => r.company_guid == g

/-- Embeds `COALESCE((SELECT SUM(outstanding_amount) ... WHERE
outstanding_amount > 0), 0)` over a tenant's customer-summary rows. -/
def positiveOutstandingSum (rows : List CSRow) : Int :=
  ((rows.filter fun r => 0 < r.outstanding_amount).map (·.outstanding_amount)).sum

/-- Sum of the negative outstanding amounts (before the `ABS`). -/
def negativeOutstandingSum (rows : List CSRow) : Int :=
  ((rows.filter fun r => r.outstanding_amount < 0).map (·.outstanding_amount)).sum

/-- Embeds the per-row effect of the `UPDATE ai.business_overview bo SET ...
WHERE bo.company_guid = $1` (lines 285-353); every correlated subquery
filters `cs.company_guid = bo.company_guid`. -/
def updateBORow (g : String) (cs : List CSRow) (row : BORow) : BORow :=
  if row.company_guid == g then
    let rows := cs.filter fun r => r.company_guid == row.company_guid
    { row with
      total_receivables := positiveOutstandingSum rows
      total_advances := |negativeOutstandingSum rows|
      total_customers := ((rows.map (·.customer_name)).dedup).length
      total_sales := (rows.map (·.sales_value)).sum
      total_receipts := (rows.map (·.receipts_value)).sum
      total_sales_formatted :=
        if rows.isEmpty then none
        else some (formatOverviewBand ((rows.map (·.sales_value)).sum))
      total_receivables_formatted := some (formatOverviewBand (positiveOutstandingSum rows))
      total_advances_formatted :=
        some (formatOverviewBand (|negativeOutstandingSum rows|)) }
  else row

/-- Embeds `refresh_business_overview` (lines 279-360): an `UPDATE` touching
only the tenant's existing row(s); it never inserts. -/
def refreshBusinessOverview (g : String) (db : DB) : DB :=
  { db with business_overview := db.business_overview.map (updateBORow g db.customer_summary) }

/-- Embeds the per-row effect of the first `UPDATE public.dashboard_metrics`
(lines 373-391); the subqueries filter `bo.company_guid = dm.company_guid`. -/
def updateDMRow (g : String) (bos : List BORow) (now : Int) (row : DMRow) : DMRow :=
  if row.company_guid == g then
    let rows := bos.filter fun b => b.company_guid == row.company_guid
    { row with
      total_receivable := some ((rows.map (·.total_receivables)).sum)
      customer_count := some ((rows.map fun b => (b.total_customers : Int)).sum)
      calculated_at := now }
  else row

/-- Embeds the sanitising `UPDATE` (lines 393-401): a `NULL` (or `NaN`, not
representable in the exact model) `total_receivable` is coerced to 0. -/
def sanitizeDMRow (g : String) (row : DMRow) : DMRow :=
  if row.company_guid == g && row.total_receivable.isNone then
    { row with total_receivable := some 0 }
  else row

/-- Embeds `refresh_dashboard_metrics` (lines 367-408): update from the
business overview, then the NaN/NULL sanitisation, tenant-scoped. -/
def refreshDashboardMetrics (g : String) (c : Clock) (db : DB) : DB :=
  { db with
    dashboard_metrics :=
      (db.dashboard_metrics.map (updateDMRow g db.business_overview c.now)).map
        (sanitizeDMRow g) }

/-- Embeds `refresh_company_ai_data` (lines 415-433). Each stage runs in its
own transaction on its own pool; `ok₁ ok₂ ok₃` say whether the stage's
transaction commits. A failed stage rolls back its own writes (leaving the
state as it received it), logs, and re-raises; the driver re-raises in turn.
The Boolean result is `true` when the call returns normally and `false`
when it propagates an exception to the caller. -/
def refreshCompanyAiData (g : String) (c : Clock) (ok₁ ok₂ ok₃ : Bool) (db : DB) :
    DB × Bool :=
  if !ok₁ then (db, false)
  else
    let db₁ := refreshCustomerSummary g c db
    if !ok₂ then (db₁, false)
    else
      let db₂ := refreshBusinessOverview g db₁
      if !ok₃ then (db₂, false)
      else (refreshDashboardMetrics g c db₂, true)

/-- One fully successful per-tenant refresh cycle. -/
def refreshCycle (g : String) (c : Clock) (db : DB) : DB :=
  (refreshCompanyAiData g c true true true db).1

/-- Voucher-type labels treated as invoices by the on-demand dashboard
refresh (routes/dashboard.py line 220). -/
def invoiceTypes : List String := ["SALES", "Invoice"]

/-- Embeds `COALESCE((SELECT SUM(pr.allocated_amount) FROM payment_references
pr WHERE pr.invoice_voucher_id = v.id AND pr.is_active = TRUE), 0)`. -/
def paidSum (prs : List PaymentRef) (vid : Nat) : Int :=
  ((prs.filter fun p => p.invoice_voucher_id == vid && p.is_active).map
    (·.allocated_amount)).sum

/-- Embeds the per-voucher effect of the `UPDATE vouchers` statement of
`refresh_dashboard` (routes/dashboard.py lines 190-223). -/
def updateVoucherPayment (g : String) (now : Int) (prs : List PaymentRef) (v : Voucher) :
    Voucher :=
  if v.company_guid == g && invoiceTypes.contains v.voucher_type then
    let p := paidSum prs v.id
    { v with
      amount_paid := some p
      amount_outstanding := some (v.total_amount - p)
      payment_status :=
        some (if v.is_cancelled then "CANCELLED"
          else if v.total_amount ≤ p then "PAID"
          else if 0 < p then "PARTIAL"
          else "UNPAID")
      payment_computed_at := some now }
  else v

/-- Embeds the voucher-payment recomputation step of the on-demand
`refresh_dashboard` endpoint. -/
def refreshDashboardVouchers (g : String) (now : Int) (db : DB) : DB :=
  { db with vouchers := db.vouchers.map (updateVoucherPayment g now db.payment_references) }

/-- Modelled from the spec: no code under src/ assigns `aging_bucket`
(routes/dashboard.py only reads it back when bucketing
`dashboard_metrics`); §4.1 `computeInvoiceAging` gives the days-since-due
threshold table {≤30: "0-30", ≤60: "31-60", ≤90: "61-90", else "90+"}. -/
def computeAgingBucket (daysSinceDue : Int) : String :=
  if daysSinceDue ≤ 30 then "0-30"
  else if daysSinceDue ≤ 60 then "31-60"
  else if daysSinceDue ≤ 90 then "61-90"
  else "90+"

/-- Modelled from the spec: aging bucket of a voucher, computed against
`today − coalesce(due_date, transaction_date)` (spec §3 and §4.1). -/
def invoiceAgingBucket (today : Int) (v : Voucher) : String :=
  computeAgingBucket (today - (v.due_date.getD v.date))

/-! ### Helper lemmas -/

/-- Projection of a customer-summary row onto the fields the `INSERT`
determines directly (everything except the two ranks and the
re-formatted sales string, which later statements of the same
transaction overwrite). -/
def coreOf (r : CSRow) : CSRow :=
  { r with sales_rank := 0, outstanding_rank := 0, sales_formatted := "" }

theorem mem_setSalesRanks {r : CSRow} :
    ∀ {n : Nat} {l : List CSRow}, r ∈ setSalesRanks n l →
      ∃ r₀ ∈ l, coreOf r = coreOf r₀ := by
  intro n l
  induction l generalizing n with
  | nil => intro h; simp [setSalesRanks] at h
  | cons a as ih =>
    intro h
    rcases List.mem_cons.mp h with h' | h'
    · exact ⟨a, List.mem_cons_self a as, by rw [h']; rfl⟩
    · rcases ih h' with ⟨r₀, hr₀, hc⟩
      exact ⟨r₀, List.mem_cons_of_mem _ hr₀, hc⟩

theorem mem_setOutstandingRanks {r : CSRow} :
    ∀ {n : Nat} {l : List CSRow}, r ∈ setOutstandingRanks n l →
      ∃ r₀ ∈ l, coreOf r = coreOf r₀ := by
  intro n l
  induction l generalizing n with
  | nil => intro h; simp [setOutstandingRanks] at h
  | cons a as ih =>
    intro h
    rcases List.mem_cons.mp h with h' | h'
    · exact ⟨a, List.mem_cons_self a as, by rw [h']; rfl⟩
    · rcases ih h' with ⟨r₀, hr₀, hc⟩
      exact ⟨r₀, List.mem_cons_of_mem _ hr₀, hc⟩

theorem mem_applySalesFormatted {r : CSRow} {l : List CSRow}
    (h : r ∈ applySalesFormatted l) : ∃ r₀ ∈ l, coreOf r = coreOf r₀ := by
  rcases List.mem_map.mp h with ⟨r₀, hr₀, hEq⟩
  exact ⟨r₀, hr₀, by rw [← hEq]; rfl⟩

theorem mem_customerRows {r : CSRow} {g : String} {ps pe : Int}
    {vs : List Voucher} {ls : List Ledger} (h : r ∈ customerRows g ps pe vs ls) :
    ∃ l ∈ ls, ledgerFilter g l = true ∧ coreOf r = coreOf (mkCustomerRow g ps pe vs l) := by
  rcases mem_applySalesFormatted h with ⟨r₁, hr₁, hc₁⟩
  rcases mem_setOutstandingRanks hr₁ with ⟨r₂, hr₂, hc₂⟩
  have hr₂' := (List.perm_insertionSort byOutstandingDesc _).mem_iff.mp hr₂
  rcases mem_setSalesRanks hr₂' with ⟨r₃, hr₃, hc₃⟩
  have hr₃' := (List.perm_insertionSort bySalesDesc _).mem_iff.mp hr₃
  rcases List.mem_map.mp hr₃' with ⟨l, hl, hEq⟩
  rcases List.mem_filter.mp hl with ⟨hls, hfil⟩
  exact ⟨l, hls, hfil, by rw [hc₁, hc₂, hc₃, hEq]⟩

theorem customerRows_guid {g : String} {ps pe : Int} {vs : List Voucher}
    {ls : List Ledger} {r : CSRow} (h : r ∈ customerRows g ps pe vs ls) :
    r.company_guid = g := by
  rcases mem_customerRows h with ⟨l, _, _, hc⟩
  have := congrArg CSRow.company_guid hc
  simpa [coreOf, mkCustomerRow] using this

theorem mem_refresh_tenant {db : DB} {g : String} {c : Clock} {row : CSRow}
    (h : row ∈ (refreshCustomerSummary g c db).customer_summary)
    (hg : row.company_guid = g) :
    row ∈ customerRows g (periodStart g c db.vouchers) (periodEnd g c db.vouchers)
      db.vouchers db.ledgers := by
  rcases List.mem_append.mp h with h' | h'
  · rcases List.mem_filter.mp h' with ⟨_, hne⟩
    simp [hg] at hne
  · exact h'

/-! ### C1: outstanding amount formula -/

/-- C1: every row inserted for a tenant by the customer-summary refresh has
`outstanding_amount = opening_balance (0 when null) + Σ total_amount of the
party's non-cancelled sales-variant vouchers − Σ total_amount of its
non-cancelled receipt-variant vouchers`, for any combination of the
type-label variants present in the vouchers. -/
theorem customerSummary_outstanding_formula (db : DB) (g : String) (c : Clock) :
    ∀ row ∈ (refreshCustomerSummary g c db).customer_summary, row.company_guid = g →
      ∃ l ∈ db.ledgers,
        row.customer_guid = l.guid ∧
        row.opening_balance = l.opening_balance.getD 0 ∧
        row.sales_value = sumVouchers db.vouchers salesTypes l.id ∧
        row.receipts_value = sumVouchers db.vouchers receiptTypes l.id ∧
        row.outstanding_amount = row.opening_balance + row.sales_value - row.receipts_value := by
  intro row hmem hg
  rcases mem_customerRows (mem_refresh_tenant hmem hg) with ⟨l, hl, _, hc⟩
  have hguid := congrArg CSRow.customer_guid hc
  have hop := congrArg CSRow.opening_balance hc
  have hsv := congrArg CSRow.sales_value hc
  have hrv := congrArg CSRow.receipts_value hc
  have hout := congrArg CSRow.outstanding_amount hc
  simp only [coreOf, mkCustomerRow] at hguid hop hsv hrv hout
  exact ⟨l, hl, hguid, hop, hsv, hrv, by rw [hout, hop, hsv, hrv]⟩

def wLedgerAcme : Ledger :=
  { id := 1, guid := "L1", company_guid := "T1", name := some "Acme",
    parent_group := "Sundry Debtors", active := true, opening_balance := some 10 }

def wLedgerCash : Ledger :=
  { id := 2, guid := "L2", company_guid := "T1", name := some "CASH",
    parent_group := "Sundry Debtors", active := true, opening_balance := some 999 }

def wVoucher (i : Nat) (ty : String) (amt : Int) : Voucher :=
  { id := i, company_guid := "T1", party_ledger_id := 1, voucher_type := ty,
    total_amount := amt, is_cancelled := false, date := 5, due_date := none,
    amount_paid := none, amount_outstanding := none, payment_status := none,
    payment_computed_at := none, aging_bucket := none }

def wClock : Clock := { today := 100, startOfYear := 0, now := 7 }

def wDB1 : DB :=
  { ledgers := [wLedgerAcme, wLedgerCash],
    vouchers := [wVoucher 1 "Sales Invoice" 100, wVoucher 2 "Payment Received" 30],
    payment_references := [], customer_summary := [], business_overview := [],
    dashboard_metrics := [] }

def wRow1 : CSRow :=
  { company_guid := "T1", period_start := 5, period_end := 5, customer_name := "Acme",
    customer_guid := "L1", opening_balance := 10, sales_value := 100, sales_count := 1,
    receipts_value := 30, receipts_count := 1, outstanding_amount := 80,
    current_balance := 80, average_order_value := { num := 0, den := 1 },
    sales_rank := 1, outstanding_rank := 1, outstanding_formatted := "₹10",
    sales_formatted := "₹100", balance_status := "OWES_MONEY" }

/-- C1 witness: a tenant with a 'Sales Invoice' voucher of 100 and a
'Payment Received' voucher of 30 against opening balance 10. -/
theorem customerSummary_outstanding_formula_witness :
    ∃ l ∈ wDB1.ledgers,
      wRow1.customer_guid = l.guid ∧
      wRow1.opening_balance = l.opening_balance.getD 0 ∧
      wRow1.sales_value = sumVouchers wDB1.vouchers salesTypes l.id ∧
      wRow1.receipts_value = sumVouchers wDB1.vouchers receiptTypes l.id ∧
      wRow1.outstanding_amount =
        wRow1.opening_balance + wRow1.sales_value - wRow1.receipts_value :=
  customerSummary_outstanding_formula wDB1 "T1" wClock wRow1 (by decide) (by decide)

/-! ### C2: business overview totals -/

/-- C2: after the business-overview refresh, a tenant's row satisfies
`total_receivables = Σ outstanding_amount over the tenant's
customer-summary rows with outstanding_amount > 0` and `total_advances =
|Σ outstanding_amount over rows with outstanding_amount < 0|`; both are
non-negative, and receivables and advances are kept apart, never netted. -/
theorem businessOverview_totals (db : DB) (g : String) :
    ∀ row ∈ (refreshBusinessOverview g db).business_overview, row.company_guid = g →
      row.total_receivables =
        positiveOutstandingSum (tenantRows g (refreshBusinessOverview g db).customer_summary) ∧
      row.total_advances =
        |negativeOutstandingSum (tenantRows g (refreshBusinessOverview g db).customer_summary)| ∧
      0 ≤ row.total_receivables ∧ 0 ≤ row.total_advances := by
  intro row hmem hg
  rcases List.mem_map.mp hmem with ⟨r₀, _, hEq⟩
  by_cases h : r₀.company_guid = g
  · have hrow : row = updateBORow g db.customer_summary r₀ := hEq.symm
    rw [updateBORow, if_pos (by simp [h])] at hrow
    have hrec : row.total_receivables =
        positiveOutstandingSum (db.customer_summary.filter
          fun r => r.company_guid == r₀.company_guid) := by rw [hrow]
    have hadv : row.total_advances =
        |negativeOutstandingSum (db.customer_summary.filter
          fun r => r.company_guid == r₀.company_guid)| := by rw [hrow]
    rw [h] at hrec hadv
    have hpos : 0 ≤ positiveOutstandingSum (db.customer_summary.filter
        fun r => r.company_guid == g) := by
      apply List.sum_nonneg
      intro x hx
      rcases List.mem_map.mp hx with ⟨r, hr, hxr⟩
      rcases List.mem_filter.mp hr with ⟨_, hlt⟩
      have : 0 < r.outstanding_amount := by simpa using hlt
      omega
    exact ⟨hrec, hadv, hrec ▸ hpos, hadv ▸ abs_nonneg _⟩
  · rw [updateBORow, if_neg (by simp [h])] at hEq
    rw [← hEq] at hg
    exact absurd hg h

def wCS (out : Int) (nm gu : String) : CSRow :=
  { company_guid := "T1", period_start := 0, period_end := 0, customer_name := nm,
    customer_guid := gu, opening_balance := 0, sales_value := 0, sales_count := 0,
    receipts_value := 0, receipts_count := 0, outstanding_amount := out,
    current_balance := out, average_order_value := { num := 0, den := 1 },
    sales_rank := 1, outstanding_rank := 1, outstanding_formatted := "₹0",
    sales_formatted := "₹0", balance_status := "SETTLED" }

def wBO : BORow :=
  { company_guid := "T1", total_receivables := 0, total_advances := 0,
    total_customers := 0, total_sales := 0, total_receipts := 0,
    total_sales_formatted := none, total_receivables_formatted := none,
    total_advances_formatted := none }

def wDB2 : DB :=
  { ledgers := [], vouchers := [], payment_references := [],
    customer_summary := [wCS 50 "A" "LA", wCS (-30) "B" "LB"],
    business_overview := [wBO], dashboard_metrics := [] }

/-- C2 witness: a tenant with a 50 receivable and a 30 advance reports
totals 50 and 30 — not a netted 20. -/
theorem businessOverview_totals_witness :
    ((updateBORow "T1" wDB2.customer_summary wBO).total_receivables =
        positiveOutstandingSum
          (tenantRows "T1" (refreshBusinessOverview "T1" wDB2).customer_summary) ∧
      (updateBORow "T1" wDB2.customer_summary wBO).total_advances =
        |negativeOutstandingSum
          (tenantRows "T1" (refreshBusinessOverview "T1" wDB2).customer_summary)| ∧
      0 ≤ (updateBORow "T1" wDB2.customer_summary wBO).total_receivables ∧
      0 ≤ (updateBORow "T1" wDB2.customer_summary wBO).total_advances) ∧
    (updateBORow "T1" wDB2.customer_summary wBO).total_receivables = 50 ∧
    (updateBORow "T1" wDB2.customer_summary wBO).total_advances = 30 :=
  ⟨businessOverview_totals wDB2 "T1" (updateBORow "T1" wDB2.customer_summary wBO)
      (by decide) (by decide),
    by decide, by decide⟩

/-! ### C3: balance_status classification -/

def wLedgerZero : Ledger :=
  { id := 1, guid := "L1", company_guid := "T1", name := some "Acme",
    parent_group := "Sundry Debtors", active := true, opening_balance := some 0 }

def wDB3 : DB :=
  { ledgers := [wLedgerZero],
    vouchers := [wVoucher 1 "Sales Invoice" 100],
    payment_references := [], customer_summary := [], business_overview := [],
    dashboard_metrics := [] }

/-- C3: evaluation exhibiting the defect — a customer whose only voucher is
a non-cancelled 'Sales Invoice' of 100 (opening balance 0) is given
`outstanding_amount = 100` yet `balance_status = "SETTLED"`, because the
`balance_status` CASE (refresh_scheduler.py lines 207-217) recomputes the
balance over the reduced label sets `('Sales','SALES','Invoice')` and
`('Receipt','RECEIPT')`, omitting 'Sales Invoice' and 'Payment Received',
unlike the `outstanding_amount` expression of the same INSERT. -/
theorem balanceStatus_salesInvoice_eval :
    ((refreshCustomerSummary "T1" wClock wDB3).customer_summary.map
      fun r => (r.outstanding_amount, r.balance_status)) = [(100, "SETTLED")] := by
  decide

/-! ### C6: aging bucket thresholds (spec-modelled) -/

/-- C6: the aging bucket of a voucher is determined by the days between
today and `coalesce(due_date, transaction_date)` through the threshold
table `{≤30: "0-30", ≤60: "31-60", ≤90: "61-90", else "90+"}`; in
particular 30 days gives "0-30", 31 gives "31-60", 91 gives "90+". -/
theorem agingBucket_threshold_table (today : Int) (v : Voucher) :
    (invoiceAgingBucket today v = "0-30" ↔ today - v.due_date.getD v.date ≤ 30) ∧
    (invoiceAgingBucket today v = "31-60" ↔
      30 < today - v.due_date.getD v.date ∧ today - v.due_date.getD v.date ≤ 60) ∧
    (invoiceAgingBucket today v = "61-90" ↔
      60 < today - v.due_date.getD v.date ∧ today - v.due_date.getD v.date ≤ 90) ∧
    (invoiceAgingBucket today v = "90+" ↔ 90 < today - v.due_date.getD v.date) := by
  unfold invoiceAgingBucket computeAgingBucket
  split_ifs with h1 h2 h3 <;>
    refine ⟨⟨?_, ?_⟩, ⟨?_, ?_⟩, ⟨?_, ?_⟩, ⟨?_, ?_⟩⟩ <;> intro h <;>
    first
      | rfl
      | omega
      | (exact absurd h (by decide))

/-! ### C7: invoice payment projection -/

/-- C7: for every invoice-type voucher of the tenant, the on-demand
dashboard refresh sets `amount_paid` to the sum of its active allocations,
`amount_outstanding` to `total_amount` minus that sum, and
`payment_status` to the cascade CANCELLED / (paid ≥ total ⇒) PAID /
(paid > 0 ⇒) PARTIAL / UNPAID. -/
theorem dashboard_invoice_payment (db : DB) (g : String) (now : Int) :
    ∀ v ∈ db.vouchers, v.company_guid = g → v.voucher_type ∈ invoiceTypes →
      updateVoucherPayment g now db.payment_references v ∈
          (refreshDashboardVouchers g now db).vouchers ∧
      (updateVoucherPayment g now db.payment_references v).amount_paid =
        some (paidSum db.payment_references v.id) ∧
      (updateVoucherPayment g now db.payment_references v).amount_outstanding =
        some (v.total_amount - paidSum db.payment_references v.id) ∧
      (updateVoucherPayment g now db.payment_references v).payment_status =
        some (if v.is_cancelled then "CANCELLED"
          else if v.total_amount ≤ paidSum db.payment_references v.id then "PAID"
          else if 0 < paidSum db.payment_references v.id then "PARTIAL"
          else "UNPAID") := by
  intro v hv hg ht
  refine ⟨List.mem_map_of_mem _ hv, ?_, ?_, ?_⟩ <;>
    simp [updateVoucherPayment, hg, ht]

def wInvoice : Voucher :=
  { id := 9, company_guid := "T1", party_ledger_id := 1, voucher_type := "Invoice",
    total_amount := 100, is_cancelled := false, date := 5, due_date := none,
    amount_paid := none, amount_outstanding := none, payment_status := none,
    payment_computed_at := none, aging_bucket := none }

def wDB7 : DB :=
  { ledgers := [], vouchers := [wInvoice],
    payment_references :=
      [{ invoice_voucher_id := 9, allocated_amount := 60, is_active := true },
       { invoice_voucher_id := 9, allocated_amount := 40, is_active := true },
       { invoice_voucher_id := 9, allocated_amount := 33, is_active := false }],
    customer_summary := [], business_overview := [], dashboard_metrics := [] }

/-- C7 witness: active allocations 60 + 40 sum to exactly the invoice total
100, so the voucher is marked PAID (not PARTIAL); the inactive allocation
is ignored. -/
theorem dashboard_invoice_payment_witness :
    (updateVoucherPayment "T1" 7 wDB7.payment_references wInvoice ∈
        (refreshDashboardVouchers "T1" 7 wDB7).vouchers ∧
      (updateVoucherPayment "T1" 7 wDB7.payment_references wInvoice).amount_paid =
        some (paidSum wDB7.payment_references wInvoice.id) ∧
      (updateVoucherPayment "T1" 7 wDB7.payment_references wInvoice).amount_outstanding =
        some (wInvoice.total_amount - paidSum wDB7.payment_references wInvoice.id) ∧
      (updateVoucherPayment "T1" 7 wDB7.payment_references wInvoice).payment_status =
        some (if wInvoice.is_cancelled then "CANCELLED"
          else if wInvoice.total_amount ≤ paidSum wDB7.payment_references wInvoice.id
            then "PAID"
          else if 0 < paidSum wDB7.payment_references wInvoice.id then "PARTIAL"
          else "UNPAID")) ∧
    (updateVoucherPayment "T1" 7 wDB7.payment_references wInvoice).payment_status =
      some "PAID" :=
  ⟨dashboard_invoice_payment wDB7 "T1" 7 wInvoice (by decide) rfl (by decide), by decide⟩

/-! ### C8: customer filter -/

/-- C8: after a tenant's customer-summary refresh, every one of the
tenant's rows comes from a ledger account with a non-null, non-empty name
outside the cash/bank exclusion set (case-insensitively), with
`parent_group = 'Sundry Debtors'` and `active = true`; hence no row exists
for an account violating any of these, regardless of its balance. -/
theorem customerSummary_excludes_filtered (db : DB) (g : String) (c : Clock) :
    ∀ row ∈ (refreshCustomerSummary g c db).customer_summary, row.company_guid = g →
      row.customer_name ≠ "" ∧
      excludedNames.contains (lowerStr row.customer_name) = false ∧
      ∃ l ∈ db.ledgers,
        row.customer_guid = l.guid ∧ row.customer_name = l.name.getD "" ∧
        l.name.isSome = true ∧ l.parent_group = "Sundry Debtors" ∧ l.active = true := by
  intro row hmem hg
  rcases mem_customerRows (mem_refresh_tenant hmem hg) with ⟨l, hl, hfil, hc⟩
  have hname := congrArg CSRow.customer_name hc
  have hguid := congrArg CSRow.customer_guid hc
  simp only [coreOf, mkCustomerRow] at hname hguid
  rw [ledgerFilter] at hfil
  simp only [Bool.and_eq_true, beq_iff_eq, bne_iff_ne, Bool.not_eq_true',
    ne_eq] at hfil
  rcases hfil with ⟨⟨⟨⟨⟨_, hpar⟩, hact⟩, hsome⟩, hne⟩, hcont⟩
  exact ⟨by rw [hname]; exact hne, by rw [hname]; exact hcont,
    l, hl, hguid, hname, hsome, hpar, hact⟩

/-- C8 witness: in `wDB1` the ledger named "CASH" (balance 999, Sundry
Debtors, active) produces no row; the surviving row is Acme's. -/
theorem customerSummary_excludes_filtered_witness :
    (wRow1.customer_name ≠ "" ∧
      excludedNames.contains (lowerStr wRow1.customer_name) = false ∧
      ∃ l ∈ wDB1.ledgers,
        wRow1.customer_guid = l.guid ∧ wRow1.customer_name = l.name.getD "" ∧
        l.name.isSome = true ∧ l.parent_group = "Sundry Debtors" ∧ l.active = true) ∧
    ((refreshCustomerSummary "T1" wClock wDB1).customer_summary.map
      fun r => r.customer_name) = ["Acme"] :=
  ⟨customerSummary_excludes_filtered wDB1 "T1" wClock wRow1 (by decide) (by decide),
    by decide⟩

/-! ### C4: stage failure behaviour -/

def wBOStale : BORow :=
  { company_guid := "T1", total_receivables := 999, total_advances := 0,
    total_customers := 0, total_sales := 0, total_receipts := 0,
    total_sales_formatted := none, total_receivables_formatted := none,
    total_advances_formatted := none }

def wDB4 : DB :=
  { ledgers := [wLedgerZero], vouchers := [], payment_references := [],
    customer_summary := [], business_overview := [wBOStale],
    dashboard_metrics := [] }

/-- C4 counterexample: the customer-summary stage commits in its own
transaction, so when the business-overview stage then fails, the error is
re-raised but the Projection Store is left with `customer_summary`
updated and `business_overview` stale — refuting the claim that the store
cannot be left partially applied. -/
theorem pipeline_partial_application_on_stage2_failure :
    (refreshCompanyAiData "T1" wClock true false true wDB4).2 = false ∧
    (refreshCompanyAiData "T1" wClock true false true wDB4).1.customer_summary ≠
      wDB4.customer_summary ∧
    (refreshCompanyAiData "T1" wClock true false true wDB4).1.business_overview =
      wDB4.business_overview := by
  decide

/-- C4 (amended): if a stage of the per-tenant cycle fails, the dependent
later stages do not run and the failure is propagated to the caller,
never swallowed; but because each stage commits its own transaction, a
failure of stage 2 (or 3) leaves the earlier stages' writes in place, so
the store can hold a fresh `customer_summary` next to a stale
`business_overview`. -/
theorem pipeline_stage_failure_behavior (db : DB) (g : String) (c : Clock)
    (ok₁ ok₂ ok₃ : Bool) :
    (refreshCompanyAiData g c ok₁ ok₂ ok₃ db).2 = (ok₁ && ok₂ && ok₃) ∧
    (ok₁ = false → (refreshCompanyAiData g c ok₁ ok₂ ok₃ db).1 = db) ∧
    (ok₂ = false →
      (refreshCompanyAiData g c ok₁ ok₂ ok₃ db).1.business_overview =
          db.business_overview ∧
      (refreshCompanyAiData g c ok₁ ok₂ ok₃ db).1.dashboard_metrics =
          db.dashboard_metrics) ∧
    (ok₃ = false →
      (refreshCompanyAiData g c ok₁ ok₂ ok₃ db).1.dashboard_metrics =
          db.dashboard_metrics) := by
  cases ok₁ <;> cases ok₂ <;> cases ok₃ <;>
    simp [refreshCompanyAiData] <;>
    first
      | rfl
      | exact ⟨rfl, rfl⟩

/-- C4 witness: with the business-overview stage failing, the call reports
failure and the overview (and metrics) tables are untouched. -/
theorem pipeline_stage_failure_behavior_witness :
    (refreshCompanyAiData "T1" wClock true false true wDB4).1.business_overview =
        wDB4.business_overview ∧
    (refreshCompanyAiData "T1" wClock true false true wDB4).2 = (true && false && true) :=
  ⟨((pipeline_stage_failure_behavior wDB4 "T1" wClock true false true).2.2.1 rfl).1,
    (pipeline_stage_failure_behavior wDB4 "T1" wClock true false true).1⟩

/-! ### Frame helper lemmas -/

theorem updateBORow_guid (g : String) (cs : List CSRow) (row : BORow) :
    (updateBORow g cs row).company_guid = row.company_guid := by
  rw [updateBORow]; split <;> rfl

theorem updateBORow_ne {g : String} {cs : List CSRow} {row : BORow}
    (h : row.company_guid ≠ g) : updateBORow g cs row = row := by
  rw [updateBORow, if_neg (by simpa using h)]

theorem updateDMRow_guid (g : String) (bos : List BORow) (now : Int) (row : DMRow) :
    (updateDMRow g bos now row).company_guid = row.company_guid := by
  rw [updateDMRow]; split <;> rfl

theorem updateDMRow_ne {g : String} {bos : List BORow} {now : Int} {row : DMRow}
    (h : row.company_guid ≠ g) : updateDMRow g bos now row = row := by
  rw [updateDMRow, if_neg (by simpa using h)]

theorem sanitizeDMRow_guid (g : String) (row : DMRow) :
    (sanitizeDMRow g row).company_guid = row.company_guid := by
  rw [sanitizeDMRow]; split <;> rfl

theorem sanitizeDMRow_ne {g : String} {row : DMRow} (h : row.company_guid ≠ g) :
    sanitizeDMRow g row = row := by
  rw [sanitizeDMRow, if_neg (by simp [h])]

theorem filter_map_of_fix {α : Type} (f : α → α) (p : α → Bool)
    (hp : ∀ a, p (f a) = p a) (hfix : ∀ a, p a = true → f a = a) :
    ∀ l : List α, (l.map f).filter p = l.filter p := by
  intro l
  induction l with
  | nil => rfl
  | cons a as ih =>
    simp only [List.map_cons, List.filter_cons, hp a]
    cases hpa : p a with
    | true => rw [hfix a hpa, ih]
    | false => exact ih

theorem map_eq_self_of_fix {α : Type} {f : α → α} {l : List α}
    (h : ∀ a ∈ l, f a = a) : l.map f = l := by
  rw [List.map_congr_left h]
  exact List.map_id l

/-! ### C10: update-only stages and tenant isolation -/

/-- C10: the scheduled cycle rewrites the tenant's customer summary by
delete+reinsert, but the business-overview and dashboard-metrics stages
only `UPDATE`: a tenant with no pre-existing row in those tables gets no
row written by the cycle, and rows of every other tenant are unchanged in
all three derived tables. -/
theorem refresh_frame_update_only (db : DB) (g : String) (c : Clock) :
    (refreshCycle g c db).ledgers = db.ledgers ∧
    (refreshCycle g c db).vouchers = db.vouchers ∧
    (refreshCycle g c db).customer_summary =
      (db.customer_summary.filter fun r => r.company_guid != g) ++
        customerRows g (periodStart g c db.vouchers) (periodEnd g c db.vouchers)
          db.vouchers db.ledgers ∧
    ((∀ row ∈ db.business_overview, row.company_guid ≠ g) →
      (refreshCycle g c db).business_overview = db.business_overview) ∧
    ((∀ row ∈ db.dashboard_metrics, row.company_guid ≠ g) →
      (refreshCycle g c db).dashboard_metrics = db.dashboard_metrics) ∧
    (∀ g', g' ≠ g →
      tenantRows g' (refreshCycle g c db).customer_summary =
        tenantRows g' db.customer_summary ∧
      ((refreshCycle g c db).business_overview.filter fun r => r.company_guid == g') =
        db.business_overview.filter (fun r => r.company_guid == g') ∧
      ((refreshCycle g c db).dashboard_metrics.filter fun r => r.company_guid == g') =
        db.dashboard_metrics.filter (fun r => r.company_guid == g')) := by
  refine ⟨rfl, rfl, rfl, fun h => ?hbo, fun h => ?hdm, fun g' hne => ?hiso⟩
  case hbo =>
    exact map_eq_self_of_fix fun a ha => updateBORow_ne (h a ha)
  case hdm =>
    show ((db.dashboard_metrics.map
        (updateDMRow g (refreshBusinessOverview g
          (refreshCustomerSummary g c db)).business_overview c.now)).map
        (sanitizeDMRow g)) = db.dashboard_metrics
    have h1 : db.dashboard_metrics.map
        (updateDMRow g (refreshBusinessOverview g
          (refreshCustomerSummary g c db)).business_overview c.now) =
        db.dashboard_metrics :=
      map_eq_self_of_fix fun a ha => updateDMRow_ne (h a ha)
    rw [h1]
    exact map_eq_self_of_fix fun a ha => sanitizeDMRow_ne (h a ha)
  case hiso =>
    refine ⟨?_, ?_, ?_⟩
    · show ((db.customer_summary.filter fun r => r.company_guid != g) ++
          customerRows g (periodStart g c db.vouchers) (periodEnd g c db.vouchers)
            db.vouchers db.ledgers).filter (fun r => r.company_guid == g') =
        db.customer_summary.filter fun r => r.company_guid == g'
      rw [List.filter_append]
      have h2 : (customerRows g (periodStart g c db.vouchers) (periodEnd g c db.vouchers)
          db.vouchers db.ledgers).filter (fun r => r.company_guid == g') = [] := by
        rw [List.filter_eq_nil_iff]
        intro a ha hg'
        have hga := customerRows_guid ha
        have : a.company_guid = g' := by simpa using hg'
        exact hne (by rw [← this, hga])
      rw [h2, List.append_nil, List.filter_filter]
      refine List.filter_congr fun a _ => ?_
      cases haq : a.company_guid == g' with
      | true =>
        have haq' : a.company_guid = g' := by simpa using haq
        simp [haq, haq', bne_iff_ne, hne]
      | false => simp [haq]
    · exact filter_map_of_fix _ _ (fun a => by simp only [updateBORow_guid])
        (fun a hpa => updateBORow_ne (by
          have : a.company_guid = g' := by simpa using hpa
          rw [this]; exact hne)) db.business_overview
    · show (((db.dashboard_metrics.map
          (updateDMRow g (refreshBusinessOverview g
            (refreshCustomerSummary g c db)).business_overview c.now)).map
          (sanitizeDMRow g)).filter fun r => r.company_guid == g') =
        db.dashboard_metrics.filter (fun r => r.company_guid == g')
      rw [filter_map_of_fix (sanitizeDMRow g) (fun r => r.company_guid == g')
        (fun a => by simp only [sanitizeDMRow_guid])
        (fun a hpa => sanitizeDMRow_ne (by
          have : a.company_guid = g' := by simpa using hpa
          rw [this]; exact hne))]
      exact filter_map_of_fix _ _ (fun a => by simp only [updateDMRow_guid])
        (fun a hpa => updateDMRow_ne (by
          have : a.company_guid = g' := by simpa using hpa
          rw [this]; exact hne)) db.dashboard_metrics

def wDM2 : DMRow :=
  { company_guid := "T2", data_as_of_date := 3, total_receivable := some 5,
    customer_count := some 1, calculated_at := 4 }

def wCST2 : CSRow :=
  { company_guid := "T2", period_start := 0, period_end := 0, customer_name := "Z",
    customer_guid := "LZ", opening_balance := 0, sales_value := 0, sales_count := 0,
    receipts_value := 0, receipts_count := 0, outstanding_amount := 7,
    current_balance := 7, average_order_value := { num := 0, den := 1 },
    sales_rank := 1, outstanding_rank := 1, outstanding_formatted := "₹7",
    sales_formatted := "₹0", balance_status := "OWES_MONEY" }

def wDB10 : DB :=
  { ledgers := [wLedgerZero], vouchers := [], payment_references := [],
    customer_summary := [wCST2], business_overview := [],
    dashboard_metrics := [wDM2] }

/-- C10 witness: a tenant with no business-overview row gets none created
by the cycle, another tenant's dashboard row and summary rows survive
unchanged. -/
theorem refresh_frame_update_only_witness :
    (refreshCycle "T1" wClock wDB10).business_overview = wDB10.business_overview ∧
    (refreshCycle "T1" wClock wDB10).dashboard_metrics = wDB10.dashboard_metrics ∧
    tenantRows "T2" (refreshCycle "T1" wClock wDB10).customer_summary =
      tenantRows "T2" wDB10.customer_summary :=
  ⟨(refresh_frame_update_only wDB10 "T1" wClock).2.2.2.1 (by decide),
    (refresh_frame_update_only wDB10 "T1" wClock).2.2.2.2.1 (by decide),
    ((refresh_frame_update_only wDB10 "T1" wClock).2.2.2.2.2 "T2" (by decide)).1⟩

/-! ### C5: idempotence of the refresh cycle -/

theorem refreshCS_cs (g : String) (c : Clock) (db : DB) :
    (refreshCustomerSummary g c db).customer_summary =
      (db.customer_summary.filter fun r => r.company_guid != g) ++
        customerRows g (periodStart g c db.vouchers) (periodEnd g c db.vouchers)
          db.vouchers db.ledgers := rfl

theorem refreshBO_bo (g : String) (db : DB) :
    (refreshBusinessOverview g db).business_overview =
      db.business_overview.map (updateBORow g db.customer_summary) := rfl

theorem refreshDM_dm (g : String) (c : Clock) (db : DB) :
    (refreshDashboardMetrics g c db).dashboard_metrics =
      (db.dashboard_metrics.map (updateDMRow g db.business_overview c.now)).map
        (sanitizeDMRow g) := rfl

theorem cycle_unfold (g : String) (c : Clock) (db : DB) :
    refreshCycle g c db =
      refreshDashboardMetrics g c
        (refreshBusinessOverview g (refreshCustomerSummary g c db)) := rfl

theorem refreshCS_ledgers (g : String) (c : Clock) (db : DB) :
    (refreshCustomerSummary g c db).ledgers = db.ledgers := rfl

theorem refreshCS_vouchers (g : String) (c : Clock) (db : DB) :
    (refreshCustomerSummary g c db).vouchers = db.vouchers := rfl

theorem refreshCS_bo (g : String) (c : Clock) (db : DB) :
    (refreshCustomerSummary g c db).business_overview = db.business_overview := rfl

theorem refreshCS_dm (g : String) (c : Clock) (db : DB) :
    (refreshCustomerSummary g c db).dashboard_metrics = db.dashboard_metrics := rfl

theorem refreshBO_cs (g : String) (db : DB) :
    (refreshBusinessOverview g db).customer_summary = db.customer_summary := rfl

theorem refreshBO_dm (g : String) (db : DB) :
    (refreshBusinessOverview g db).dashboard_metrics = db.dashboard_metrics := rfl

theorem refreshBO_ledgers (g : String) (db : DB) :
    (refreshBusinessOverview g db).ledgers = db.ledgers := rfl

theorem refreshBO_vouchers (g : String) (db : DB) :
    (refreshBusinessOverview g db).vouchers = db.vouchers := rfl

theorem refreshDM_cs (g : String) (c : Clock) (db : DB) :
    (refreshDashboardMetrics g c db).customer_summary = db.customer_summary := rfl

theorem refreshDM_bo (g : String) (c : Clock) (db : DB) :
    (refreshDashboardMetrics g c db).business_overview = db.business_overview := rfl

theorem refreshDM_ledgers (g : String) (c : Clock) (db : DB) :
    (refreshDashboardMetrics g c db).ledgers = db.ledgers := rfl

theorem refreshDM_vouchers (g : String) (c : Clock) (db : DB) :
    (refreshDashboardMetrics g c db).vouchers = db.vouchers := rfl

theorem filter_ne_customerRows (g : String) (ps pe : Int) (vs : List Voucher)
    (ls : List Ledger) :
    (customerRows g ps pe vs ls).filter (fun r => r.company_guid != g) = [] := by
  rw [List.filter_eq_nil_iff]
  intro a ha
  simp [customerRows_guid ha]

theorem filter_ne_refreshCS (g : String) (c : Clock) (db : DB) :
    ((refreshCustomerSummary g c db).customer_summary.filter
      fun r => r.company_guid != g) =
      db.customer_summary.filter fun r => r.company_guid != g := by
  rw [refreshCS_cs, List.filter_append, filter_ne_customerRows, List.append_nil,
    List.filter_filter]
  exact List.filter_congr fun a _ => Bool.and_self _

theorem updateBORow_idem (g : String) (cs : List CSRow) (row : BORow) :
    updateBORow g cs (updateBORow g cs row) = updateBORow g cs row := by
  by_cases h : row.company_guid = g
  · simp [updateBORow, h]
  · rw [updateBORow_ne h, updateBORow_ne h]

theorem dmStep_idem (g : String) (bos : List BORow) (now : Int) (row : DMRow) :
    sanitizeDMRow g (updateDMRow g bos now
      (sanitizeDMRow g (updateDMRow g bos now row))) =
      sanitizeDMRow g (updateDMRow g bos now row) := by
  by_cases h : row.company_guid = g
  · simp [updateDMRow, sanitizeDMRow, h]
  · rw [updateDMRow_ne h, sanitizeDMRow_ne h, updateDMRow_ne h, sanitizeDMRow_ne h]

theorem bo_map_idem (g : String) (cs : List CSRow) (l : List BORow) :
    (l.map (updateBORow g cs)).map (updateBORow g cs) = l.map (updateBORow g cs) := by
  rw [List.map_map]
  exact List.map_congr_left fun a _ => updateBORow_idem g cs a

/-- C5 (amended): with the ambient clock held fixed, re-running the full
per-tenant cycle on unchanged source data reproduces the entire database
state byte-for-byte — every derived row of every derived table, ranks and
formatted strings included. (The unamended claim fails only on the
`dashboard_metrics.calculated_at` column, which is set to `NOW()` of the
run.) -/
theorem refreshCycle_idempotent_fixed_clock (g : String) (c : Clock) (db : DB) :
    refreshCycle g c (refreshCycle g c db) = refreshCycle g c db := by
  have hcs : (refreshCustomerSummary g c (refreshCycle g c db)).customer_summary =
      (refreshCustomerSummary g c db).customer_summary := by
    rw [refreshCS_cs, refreshCS_cs]
    show ((refreshCycle g c db).customer_summary.filter fun r => r.company_guid != g) ++
        customerRows g (periodStart g c db.vouchers) (periodEnd g c db.vouchers)
          db.vouchers db.ledgers = _
    rw [show (refreshCycle g c db).customer_summary =
        (refreshCustomerSummary g c db).customer_summary from rfl, filter_ne_refreshCS]
  have hbo : (refreshBusinessOverview g
      (refreshCustomerSummary g c (refreshCycle g c db))).business_overview =
      (refreshBusinessOverview g (refreshCustomerSummary g c db)).business_overview := by
    rw [refreshBO_bo, refreshBO_bo, refreshCS_bo, refreshCS_bo, hcs]
    rw [show (refreshCycle g c db).business_overview =
      db.business_overview.map
        (updateBORow g (refreshCustomerSummary g c db).customer_summary) from rfl]
    exact bo_map_idem g _ db.business_overview
  apply DB.ext
  · rfl
  · rfl
  · rfl
  · show (refreshCustomerSummary g c (refreshCycle g c db)).customer_summary =
      (refreshCustomerSummary g c db).customer_summary
    exact hcs
  · show (refreshBusinessOverview g
        (refreshCustomerSummary g c (refreshCycle g c db))).business_overview =
      (refreshBusinessOverview g (refreshCustomerSummary g c db)).business_overview
    exact hbo
  · show (refreshDashboardMetrics g c (refreshBusinessOverview g
        (refreshCustomerSummary g c (refreshCycle g c db)))).dashboard_metrics =
      (refreshDashboardMetrics g c (refreshBusinessOverview g
        (refreshCustomerSummary g c db))).dashboard_metrics
    rw [refreshDM_dm, refreshDM_dm, hbo]
    rw [show (refreshBusinessOverview g
        (refreshCustomerSummary g c (refreshCycle g c db))).dashboard_metrics =
        (refreshCycle g c db).dashboard_metrics from rfl]
    rw [show (refreshCycle g c db).dashboard_metrics =
        ((db.dashboard_metrics.map (updateDMRow g (refreshBusinessOverview g
          (refreshCustomerSummary g c db)).business_overview c.now)).map
          (sanitizeDMRow g)) from rfl]
    rw [show (refreshBusinessOverview g
        (refreshCustomerSummary g c db)).dashboard_metrics = db.dashboard_metrics from rfl]
    rw [List.map_map, List.map_map, List.map_map, List.map_map]
    exact List.map_congr_left fun a _ => dmStep_idem g _ c.now a

def wDM1 : DMRow :=
  { company_guid := "T1", data_as_of_date := 3, total_receivable := some 5,
    customer_count := some 1, calculated_at := 4 }

def wDB5 : DB :=
  { ledgers := [], vouchers := [], payment_references := [],
    customer_summary := [], business_overview := [],
    dashboard_metrics := [wDM1] }

def wClock2 : Clock := { today := 100, startOfYear := 0, now := 8 }

/-- C5 counterexample: running the cycle twice in a row on unchanged source
data (the first run touches no voucher or ledger) does not give
byte-identical derived rows: the second run observes a later `NOW()` and
rewrites `dashboard_metrics.calculated_at`, so the timestamp field
differs. -/
theorem refresh_twice_calculated_at_differs :
    (refreshCycle "T1" wClock wDB5).ledgers = wDB5.ledgers ∧
    (refreshCycle "T1" wClock wDB5).vouchers = wDB5.vouchers ∧
    (refreshCycle "T1" wClock2 (refreshCycle "T1" wClock wDB5)).dashboard_metrics ≠
      (refreshCycle "T1" wClock wDB5).dashboard_metrics := by
  decide

/-! ### C9: rank assignment lemmas -/

theorem length_setSalesRanks : ∀ (n : Nat) (l : List CSRow),
    (setSalesRanks n l).length = l.length
  | _, [] => rfl
  | n, _ :: rs => congrArg Nat.succ (length_setSalesRanks (n + 1) rs)

theorem length_setOutstandingRanks : ∀ (n : Nat) (l : List CSRow),
    (setOutstandingRanks n l).length = l.length
  | _, [] => rfl
  | n, _ :: rs => congrArg Nat.succ (length_setOutstandingRanks (n + 1) rs)

theorem map_salesRank_setSalesRanks : ∀ (n : Nat) (l : List CSRow),
    (setSalesRanks n l).map (·.sales_rank) = List.range' n l.length := by
  intro n l
  induction l generalizing n with
  | nil => rfl
  | cons a as ih =>
    rw [setSalesRanks, List.map_cons, List.length_cons, List.range'_succ, ih]

theorem map_outstandingRank_setOutstandingRanks : ∀ (n : Nat) (l : List CSRow),
    (setOutstandingRanks n l).map (·.outstanding_rank) = List.range' n l.length := by
  intro n l
  induction l generalizing n with
  | nil => rfl
  | cons a as ih =>
    rw [setOutstandingRanks, List.map_cons, List.length_cons, List.range'_succ, ih]

theorem map_salesRank_setOutstandingRanks : ∀ (n : Nat) (l : List CSRow),
    (setOutstandingRanks n l).map (·.sales_rank) = l.map (·.sales_rank) := by
  intro n l
  induction l generalizing n with
  | nil => rfl
  | cons a as ih =>
    rw [setOutstandingRanks, List.map_cons, List.map_cons, ih]

theorem map_salesValue_setSalesRanks : ∀ (n : Nat) (l : List CSRow),
    (setSalesRanks n l).map (·.sales_value) = l.map (·.sales_value) := by
  intro n l
  induction l generalizing n with
  | nil => rfl
  | cons a as ih =>
    rw [setSalesRanks, List.map_cons, List.map_cons, ih]

theorem map_salesValue_setOutstandingRanks : ∀ (n : Nat) (l : List CSRow),
    (setOutstandingRanks n l).map (·.sales_value) = l.map (·.sales_value) := by
  intro n l
  induction l generalizing n with
  | nil => rfl
  | cons a as ih =>
    rw [setOutstandingRanks, List.map_cons, List.map_cons, ih]

theorem map_outstandingAmount_setOutstandingRanks : ∀ (n : Nat) (l : List CSRow),
    (setOutstandingRanks n l).map (·.outstanding_amount) = l.map (·.outstanding_amount) := by
  intro n l
  induction l generalizing n with
  | nil => rfl
  | cons a as ih =>
    rw [setOutstandingRanks, List.map_cons, List.map_cons, ih]

theorem map_salesRank_applySalesFormatted (l : List CSRow) :
    (applySalesFormatted l).map (·.sales_rank) = l.map (·.sales_rank) := by
  rw [applySalesFormatted, List.map_map]
  exact List.map_congr_left fun a _ => rfl

theorem map_outstandingRank_applySalesFormatted (l : List CSRow) :
    (applySalesFormatted l).map (·.outstanding_rank) = l.map (·.outstanding_rank) := by
  rw [applySalesFormatted, List.map_map]
  exact List.map_congr_left fun a _ => rfl

theorem map_salesValue_applySalesFormatted (l : List CSRow) :
    (applySalesFormatted l).map (·.sales_value) = l.map (·.sales_value) := by
  rw [applySalesFormatted, List.map_map]
  exact List.map_congr_left fun a _ => rfl

theorem map_outstandingAmount_applySalesFormatted (l : List CSRow) :
    (applySalesFormatted l).map (·.outstanding_amount) = l.map (·.outstanding_amount) := by
  rw [applySalesFormatted, List.map_map]
  exact List.map_congr_left fun a _ => rfl

theorem exists_setOutstandingRanks_of_mem {x : CSRow} :
    ∀ {l : List CSRow}, x ∈ l → ∀ n : Nat,
      ∃ y ∈ setOutstandingRanks n l,
        y.sales_rank = x.sales_rank ∧ y.sales_value = x.sales_value := by
  intro l
  induction l with
  | nil => intro h; exact absurd h (List.not_mem_nil x)
  | cons a as ih =>
    intro h n
    rcases List.mem_cons.mp h with h' | h'
    · subst h'
      exact ⟨{ x with outstanding_rank := n },
        List.mem_cons_self _ _, rfl, rfl⟩
    · rcases ih h' (n + 1) with ⟨y, hy, hy₁, hy₂⟩
      exact ⟨y, List.mem_cons_of_mem _ hy, hy₁, hy₂⟩

theorem tenantRows_refreshCS (g : String) (c : Clock) (db : DB) :
    tenantRows g (refreshCustomerSummary g c db).customer_summary =
      customerRows g (periodStart g c db.vouchers) (periodEnd g c db.vouchers)
        db.vouchers db.ledgers := by
  rw [tenantRows, refreshCS_cs, List.filter_append]
  have h1 : ((db.customer_summary.filter fun r => r.company_guid != g).filter
      fun r => r.company_guid == g) = [] := by
    rw [List.filter_filter, List.filter_eq_nil_iff]
    intro a _
    cases heq : a.company_guid == g <;> simp [heq, bne]
  have h2 : ((customerRows g (periodStart g c db.vouchers) (periodEnd g c db.vouchers)
      db.vouchers db.ledgers).filter fun r => r.company_guid == g) =
      customerRows g (periodStart g c db.vouchers) (periodEnd g c db.vouchers)
        db.vouchers db.ledgers :=
    List.filter_eq_self.mpr fun a ha => by simp [customerRows_guid ha]
  rw [h1, h2, List.nil_append]

/-- C9: per tenant the refresh assigns `ROW_NUMBER`-style ranks over the
freshly produced rows: some row of maximal `sales_value` carries
`sales_rank = 1` (likewise a row of maximal `outstanding_amount` carries
`outstanding_rank = 1`), and for N rows the `sales_rank` values — and the
`outstanding_rank` values — are a permutation of 1..N with no gaps. -/
theorem customerSummary_rank_permutation (db : DB) (g : String) (c : Clock) :
    ((tenantRows g (refreshCustomerSummary g c db).customer_summary).map
        (·.sales_rank)).Perm
      (List.range' 1
        (tenantRows g (refreshCustomerSummary g c db).customer_summary).length) ∧
    ((tenantRows g (refreshCustomerSummary g c db).customer_summary).map
        (·.outstanding_rank)).Perm
      (List.range' 1
        (tenantRows g (refreshCustomerSummary g c db).customer_summary).length) ∧
    (tenantRows g (refreshCustomerSummary g c db).customer_summary ≠ [] →
      ∃ r ∈ tenantRows g (refreshCustomerSummary g c db).customer_summary,
        r.sales_rank = 1 ∧
        ∀ r' ∈ tenantRows g (refreshCustomerSummary g c db).customer_summary,
          r'.sales_value ≤ r.sales_value) ∧
    (tenantRows g (refreshCustomerSummary g c db).customer_summary ≠ [] →
      ∃ r ∈ tenantRows g (refreshCustomerSummary g c db).customer_summary,
        r.outstanding_rank = 1 ∧
        ∀ r' ∈ tenantRows g (refreshCustomerSummary g c db).customer_summary,
          r'.outstanding_amount ≤ r.outstanding_amount) := by
  rw [tenantRows_refreshCS]
  set ps := periodStart g c db.vouchers with hps
  set pe := periodEnd g c db.vouchers with hpe
  set inserted := (db.ledgers.filter (ledgerFilter g)).map (mkCustomerRow g ps pe db.vouchers)
    with hinserted
  set s₀ := List.insertionSort bySalesDesc inserted with hs0
  set s := setSalesRanks 1 s₀ with hs
  set q := List.insertionSort byOutstandingDesc s with hq
  set t := setOutstandingRanks 1 q with ht
  have hCRdef : customerRows g ps pe db.vouchers db.ledgers = applySalesFormatted t := by
    rw [ht, hq, hs, hs0, hinserted]; rfl
  rw [hCRdef]
  have hlen_t : (applySalesFormatted t).length = q.length := by
    rw [applySalesFormatted, List.length_map, ht, length_setOutstandingRanks]
  have hlen_q : q.length = s.length := by
    rw [hq, List.length_insertionSort]
  have hlen_s : s.length = s₀.length := by
    rw [hs, length_setSalesRanks]
  refine ⟨?_, ?_, ?_, ?_⟩
  · have e1 : (applySalesFormatted t).map (·.sales_rank) = q.map (·.sales_rank) := by
      rw [map_salesRank_applySalesFormatted, ht, map_salesRank_setOutstandingRanks]
    have e2 : s.map (·.sales_rank) = List.range' 1 s₀.length := by
      rw [hs, map_salesRank_setSalesRanks]
    rw [e1, hlen_t, hlen_q, hlen_s, ← e2, hq]
    exact (List.perm_insertionSort byOutstandingDesc s).map _
  · have e3 : (applySalesFormatted t).map (·.outstanding_rank) = List.range' 1 q.length := by
      rw [map_outstandingRank_applySalesFormatted, ht,
        map_outstandingRank_setOutstandingRanks]
    rw [e3, hlen_t]
  · intro hne
    rcases hs₀eq : s₀ with _ | ⟨h0, tl⟩
    · refine absurd (List.eq_nil_of_length_eq_zero ?_) hne
      rw [hlen_t, hlen_q, hlen_s, hs₀eq]
      rfl
    · have hsort : List.Sorted bySalesDesc s₀ := by
        rw [hs0]; exact List.sorted_insertionSort bySalesDesc inserted
      rw [hs₀eq] at hsort
      have hmax : ∀ b ∈ s₀, b.sales_value ≤ h0.sales_value := by
        intro b hb
        rw [hs₀eq] at hb
        rcases List.mem_cons.mp hb with h' | h'
        · rw [h']
        · exact List.rel_of_sorted_cons hsort b h'
      have hhs : ({ h0 with sales_rank := 1 } : CSRow) ∈ s := by
        rw [hs, hs₀eq]
        show _ ∈ { h0 with sales_rank := 1 } :: setSalesRanks 2 tl
        exact List.mem_cons_self _ _
      have hq' : ({ h0 with sales_rank := 1 } : CSRow) ∈ q := by
        rw [hq]
        exact (List.perm_insertionSort byOutstandingDesc s).mem_iff.mpr hhs
      rcases exists_setOutstandingRanks_of_mem hq' 1 with ⟨y, hy, hyr, hyv⟩
      have hyt : y ∈ t := by rw [ht]; exact hy
      refine ⟨{ y with sales_formatted := formatSalesBand y.sales_value },
        List.mem_map_of_mem _ hyt, hyr, ?_⟩
      intro r' hr'
      show r'.sales_value ≤ y.sales_value
      have hval : r'.sales_value ∈ (applySalesFormatted t).map (·.sales_value) :=
        List.mem_map_of_mem _ hr'
      rw [map_salesValue_applySalesFormatted, ht, map_salesValue_setOutstandingRanks,
        hq] at hval
      have hval2 : r'.sales_value ∈ s.map (·.sales_value) :=
        ((List.perm_insertionSort byOutstandingDesc s).map _).mem_iff.mp hval
      rw [hs, map_salesValue_setSalesRanks] at hval2
      rcases List.mem_map.mp hval2 with ⟨x, hx, hxv⟩
      rw [hyv]
      calc r'.sales_value = x.sales_value := hxv.symm
        _ ≤ h0.sales_value := hmax x hx
  · intro hne
    rcases hqeq : q with _ | ⟨h1, tq⟩
    · refine absurd (List.eq_nil_of_length_eq_zero ?_) hne
      rw [hlen_t, hqeq]
      rfl
    · have hsortq : List.Sorted byOutstandingDesc q := by
        rw [hq]; exact List.sorted_insertionSort byOutstandingDesc s
      rw [hqeq] at hsortq
      have hmaxq : ∀ b ∈ q, b.outstanding_amount ≤ h1.outstanding_amount := by
        intro b hb
        rw [hqeq] at hb
        rcases List.mem_cons.mp hb with h' | h'
        · rw [h']
        · exact List.rel_of_sorted_cons hsortq b h'
      have hy1 : ({ h1 with outstanding_rank := 1 } : CSRow) ∈ t := by
        rw [ht, hqeq]
        show _ ∈ { h1 with outstanding_rank := 1 } :: setOutstandingRanks 2 tq
        exact List.mem_cons_self _ _
      refine ⟨{ ({ h1 with outstanding_rank := 1 } : CSRow) with
          sales_formatted := formatSalesBand
            ({ h1 with outstanding_rank := 1 } : CSRow).sales_value },
        List.mem_map_of_mem _ hy1, rfl, ?_⟩
      intro r' hr'
      show r'.outstanding_amount ≤ h1.outstanding_amount
      have hval : r'.outstanding_amount ∈ (applySalesFormatted t).map (·.outstanding_amount) :=
        List.mem_map_of_mem _ hr'
      rw [map_outstandingAmount_applySalesFormatted, ht,
        map_outstandingAmount_setOutstandingRanks] at hval
      rcases List.mem_map.mp hval with ⟨x, hx, hxv⟩
      rw [← hxv]
      exact hmaxq x hx

def wLedgerBob : Ledger :=
  { id := 2, guid := "L2", company_guid := "T1", name := some "Bob",
    parent_group := "Sundry Debtors", active := true, opening_balance := some 0 }

def wDB9 : DB :=
  { ledgers := [wLedgerZero, wLedgerBob],
    vouchers := [wVoucher 1 "Sales" 100,
      { wVoucher 2 "Sales" 40 with party_ledger_id := 2 }],
    payment_references := [], customer_summary := [], business_overview := [],
    dashboard_metrics := [] }

/-- C9 witness: a tenant with two customers (sales 100 and 40): a maximal
customer carries `sales_rank = 1`. -/
theorem customerSummary_rank_permutation_witness :
    ∃ r ∈ tenantRows "T1" (refreshCustomerSummary "T1" wClock wDB9).customer_summary,
      r.sales_rank = 1 ∧
      ∀ r' ∈ tenantRows "T1" (refreshCustomerSummary "T1" wClock wDB9).customer_summary,
        r'.sales_value ≤ r.sales_value :=
  (customerSummary_rank_permutation wDB9 "T1" wClock).2.2.1 (by decide)
